import Mathlib

/-!
Verification of the bookstore manager client (src/src/App.tsx).

The component is embedded shallowly: each event handler becomes a pure
function from the component state (plus the responses the environment
would deliver for the network calls it makes) to the new state together
with the trace of network events it performed, in program order.
JavaScript's `parseInt` is modelled exactly. Integer
`Number.prototype.toString` is modelled as the exact decimal digit
string, which coincides with JS precisely on safe integers
(magnitude at most 2^53); beyond that JS may print fewer (shortest
round-trip) digits and, from 1e21, switches to exponential notation,
so theorems about the rendering are stated on the safe range and the
divergence beyond it is exhibited on a concrete record.
-/

namespace BookApp

/-! ### JavaScript string/number primitives -/

/-- Whitespace skipped by the JS `parseInt` before reading a number. -/
def isJsSpace (c : Char) : Bool :=
  c = ' ' || c = '\t' || c = '\n' || c = '\r' || c = '\x0b' || c = '\x0c'

/-- Value of a decimal digit character, if it is one. -/
def digit? (c : Char) : Option Nat :=
  if 48 ≤ c.toNat ∧ c.toNat ≤ 57 then some (c.toNat - 48) else none

/-- Value of a hexadecimal digit character, if it is one. -/
def hexDigit? (c : Char) : Option Nat :=
  if 48 ≤ c.toNat ∧ c.toNat ≤ 57 then some (c.toNat - 48)
  else if 97 ≤ c.toNat ∧ c.toNat ≤ 102 then some (c.toNat - 87)
  else if 65 ≤ c.toNat ∧ c.toNat ≤ 70 then some (c.toNat - 55)
  else none

/-- Longest prefix of digit values readable with the digit reader `f`. -/
def leadingDigits (f : Char → Option Nat) : List Char → List Nat
  | [] => []
  | c :: rest =>
    match f c with
    | some d => d :: leadingDigits f rest
    | none => []

/-- Numeric value of a most-significant-first digit list in the given base. -/
def valOfDigits (base : Nat) (ds : List Nat) : Nat :=
  ds.foldl (fun a d => a * base + d) 0

/-- Read the longest digit prefix; no digit at all means NaN (`none`). -/
def parseLeading (base : Nat) (f : Char → Option Nat) (cs : List Char) : Option Nat :=
  match leadingDigits f cs with
  | [] => none
  | ds => some (valOfDigits base ds)

/-- After the optional sign, JS `parseInt` reads hex after a `0x`/`0X`
prefix and decimal otherwise. -/
def parseUnsigned (cs : List Char) : Option Nat :=
  match cs with
  | c0 :: c1 :: rest =>
    if c0 = '0' ∧ (c1 = 'x' ∨ c1 = 'X') then parseLeading 16 hexDigit? rest
    else parseLeading 10 digit? cs
  | _ => parseLeading 10 digit? cs

/-- JS `parseInt(s)`: skip whitespace, optional sign, then the longest
numeral prefix; `none` models the NaN result. -/
def parseIntJS (s : String) : Option Int :=
  match s.data.dropWhile isJsSpace with
  | [] => none
  | c :: rest =>
    if c = '-' then (parseUnsigned rest).map (fun k => -(Int.ofNat k))
    else if c = '+' then (parseUnsigned rest).map Int.ofNat
    else (parseUnsigned (c :: rest)).map Int.ofNat

/-- Most-significant-first decimal digits of `n`; the fuel argument only
bounds the recursion depth and is irrelevant once it exceeds `n`. -/
def decDigits : Nat → Nat → List Nat
  | 0, _ => []
  | fuel + 1, n => if n < 10 then [n] else decDigits fuel (n / 10) ++ [n % 10]

/-- Decimal digit characters of a natural number, as JS renders it. -/
def natToDecChars (n : Nat) : List Char :=
  (decDigits (n + 1) n).map (fun d => Char.ofNat (48 + d))

/-- The exact decimal digit string of an integer. This is what JS
`Number.prototype.toString` returns for every safe integer
(`n.natAbs ≤ 2 ^ 53`); for larger magnitudes JS may print fewer
(shortest round-trip) digits and, from 1e21, uses exponential notation
such as "1e+21", neither of which this renderer models. -/
def intToString (n : Int) : String :=
  if n < 0 then ⟨'-' :: natToDecChars n.natAbs⟩ else ⟨natToDecChars n.natAbs⟩

/-! ### Data model (interfaces `Book` and `BookFormData`) -/

/-- A persisted book record as the API returns it. -/
structure Book where
  id : Int
  book_name : String
  author_name : String
  isbn : Int
deriving Repr, DecidableEq

/-- The transient form draft; `isbn` is held as text until submit. -/
structure BookFormData where
  book_name : String
  author_name : String
  isbn : String
deriving Repr, DecidableEq

/-- The write-request body built by `handleSubmit`; `isbn` is the
`parseInt` result, `none` standing for NaN. -/
structure Payload where
  book_name : String
  author_name : String
  isbn : Option Int
deriving Repr, DecidableEq

/-- The network requests the component can issue. -/
inductive Request where
  | getBooks
  | postBook (p : Payload)
  | putBook (id : Int) (p : Payload)
  | deleteBook (id : Int)
deriving Repr, DecidableEq

/-- A network event: a request being issued or its response arriving
(`ok = false` covers both a non-2xx status and a transport error, which
the component treats identically). -/
inductive Event where
  | request (r : Request)
  | response (r : Request) (ok : Bool)
deriving Repr, DecidableEq

/-- The component state held in the React `useState` hooks. -/
structure AppState where
  books : List Book
  isFormOpen : Bool
  editingBook : Option Book
  formData : BookFormData
  loading : Bool
  error : String
deriving Repr, DecidableEq

/-- The initial hook values. -/
def initialState : AppState :=
  { books := []
    isFormOpen := false
    editingBook := none
    formData := { book_name := "", author_name := "", isbn := "" }
    loading := false
    error := "" }

/-! ### Handlers -/

/-- `fetchBooks`: the Catalog Loader. `result` is `some data` when the
GET succeeded (2xx with a JSON list) and `none` on any failure. -/
def fetchBooks (s : AppState) (result : Option (List Book)) : AppState × List Event :=
  match result with
  | some data =>
    ({ s with books := data, error := "", loading := false },
      [Event.request Request.getBooks, Event.response Request.getBooks true])
  | none =>
    ({ s with error := "Failed to load books. Make sure API is running.", loading := false },
      [Event.request Request.getBooks, Event.response Request.getBooks false])

/-- `resetForm`: clear the draft, stop editing, close the modal. -/
def resetForm (s : AppState) : AppState :=
  { s with formData := { book_name := "", author_name := "", isbn := "" }
           editingBook := none
           isFormOpen := false }

/-- The `bookData` object built on line 62: the two strings verbatim and
the isbn text through `parseInt`. -/
def submitPayload (f : BookFormData) : Payload :=
  { book_name := f.book_name, author_name := f.author_name, isbn := parseIntJS f.isbn }

/-- The mutation chosen on lines 68-72: PUT to the edited record's id,
or POST to the collection. -/
def submitRequest (s : AppState) : Request :=
  match s.editingBook with
  | some b => Request.putBook b.id (submitPayload s.formData)
  | none => Request.postBook (submitPayload s.formData)

/-- `handleSubmit`: validate, send the mutation, and on success re-fetch
and reset. `mutOk` is whether the mutation response was ok; `fetchRes`
is what the subsequent GET would deliver. -/
def handleSubmit (s : AppState) (mutOk : Bool) (fetchRes : Option (List Book)) :
    AppState × List Event :=
  if s.formData.book_name = "" ∨ s.formData.author_name = "" ∨ s.formData.isbn = "" then
    ({ s with error := "All fields are required" }, [])
  else
    let req := submitRequest s
    if mutOk then
      let after := fetchBooks { s with loading := true } fetchRes
      ({ resetForm after.1 with error := "", loading := false },
        Event.request req :: Event.response req true :: after.2)
    else
      ({ s with error := "Failed to save book", loading := false },
        [Event.request req, Event.response req false])

/-- `handleDelete`: confirmation gate, then DELETE by id, then on
success re-fetch. -/
def handleDelete (s : AppState) (id : Int) (confirmed : Bool) (delOk : Bool)
    (fetchRes : Option (List Book)) : AppState × List Event :=
  if !confirmed then (s, [])
  else
    let req := Request.deleteBook id
    if delOk then
      let after := fetchBooks { s with loading := true } fetchRes
      ({ after.1 with error := "", loading := false },
        Event.request req :: Event.response req true :: after.2)
    else
      ({ s with error := "Failed to delete book", loading := false },
        [Event.request req, Event.response req false])

/-- `handleEdit`: remember the record and pre-fill the draft from it,
rendering the isbn number back to text. -/
def handleEdit (s : AppState) (b : Book) : AppState :=
  { s with editingBook := some b
           formData := { book_name := b.book_name
                         author_name := b.author_name
                         isbn := intToString b.isbn }
           isFormOpen := true }

/-! ### Observations on traces -/

/-- The requests issued in a trace, in order. -/
def requestsOf (evs : List Event) : List Request :=
  evs.filterMap fun e =>
    match e with
    | Event.request r => some r
    | Event.response _ _ => none

/-- Whether a request is a mutation (anything but the list GET). -/
def isMutation : Request → Bool
  | Request.getBooks => false
  | _ => true

/-- The mutation requests issued in a trace. -/
def mutationCalls (evs : List Event) : List Request :=
  (requestsOf evs).filter (fun r => isMutation r)

/-- The body carried by a write request. -/
def payloadOf : Request → Option Payload
  | Request.postBook p => some p
  | Request.putBook _ p => some p
  | _ => none

/-- No list-refresh request occurs in the trace before a successful
response to the mutation `mreq` has been received. -/
def refreshOnlyAfterResp (mreq : Request) : List Event → Bool
  | [] => true
  | e :: rest =>
    if e = Event.response mreq true then true
    else if e = Event.request Request.getBooks then false
    else refreshOnlyAfterResp mreq rest

/-! ### The decimal render/parse round trip -/

lemma decDigits_succ (fuel n : Nat) :
    decDigits (fuel + 1) n = if n < 10 then [n] else decDigits fuel (n / 10) ++ [n % 10] := rfl

lemma decDigits_ne_nil (fuel n : Nat) : decDigits (fuel + 1) n ≠ [] := by
  rw [decDigits_succ]
  split <;> simp

lemma decDigits_all_lt (fuel : Nat) :
    ∀ n, n < fuel → ∀ d ∈ decDigits fuel n, d < 10 := by
  induction fuel with
  | zero => intro n h; exact absurd h (Nat.not_lt_zero n)
  | succ fuel ih =>
    intro n h d hd
    rw [decDigits_succ] at hd
    by_cases h10 : n < 10
    · simp only [if_pos h10, List.mem_singleton] at hd
      omega
    · simp only [if_neg h10, List.mem_append, List.mem_singleton] at hd
      rcases hd with hd | hd
      · have hdiv : n / 10 < n := Nat.div_lt_self (by omega) (by omega)
        exact ih (n / 10) (by omega) d hd
      · omega

lemma foldl_decDigits (fuel : Nat) :
    ∀ n acc, n < fuel →
      (decDigits fuel n).foldl (fun a d => a * 10 + d) acc =
        acc * 10 ^ (decDigits fuel n).length + n := by
  induction fuel with
  | zero => intro n acc h; exact absurd h (Nat.not_lt_zero n)
  | succ fuel ih =>
    intro n acc h
    rw [decDigits_succ]
    by_cases h10 : n < 10
    · simp [if_pos h10]
    · have hdiv : n / 10 < n := Nat.div_lt_self (by omega) (by omega)
      rw [if_neg h10, List.foldl_append, ih (n / 10) acc (by omega),
        List.length_append, List.length_singleton]
      show (acc * 10 ^ (decDigits fuel (n / 10)).length + n / 10) * 10 + n % 10 = _
      calc (acc * 10 ^ (decDigits fuel (n / 10)).length + n / 10) * 10 + n % 10
          = acc * (10 ^ (decDigits fuel (n / 10)).length * 10) + (10 * (n / 10) + n % 10) := by
            ring
        _ = acc * 10 ^ ((decDigits fuel (n / 10)).length + 1) + n := by
            rw [pow_succ, Nat.div_add_mod]

lemma valOfDigits_decDigits (n : Nat) : valOfDigits 10 (decDigits (n + 1) n) = n := by
  have h := foldl_decDigits (n + 1) n 0 (Nat.lt_succ_self n)
  simpa [valOfDigits] using h

lemma decChar_props (d : Nat) (h : d < 10) :
    digit? (Char.ofNat (48 + d)) = some d ∧
    Char.ofNat (48 + d) ≠ 'x' ∧ Char.ofNat (48 + d) ≠ 'X' ∧
    Char.ofNat (48 + d) ≠ '-' ∧ Char.ofNat (48 + d) ≠ '+' ∧
    isJsSpace (Char.ofNat (48 + d)) = false := by
  interval_cases d <;> exact ⟨by decide, by decide, by decide, by decide, by decide, by decide⟩

lemma leadingDigits_map (ds : List Nat) (h : ∀ d ∈ ds, d < 10) :
    leadingDigits digit? (ds.map (fun d => Char.ofNat (48 + d))) = ds := by
  induction ds with
  | nil => rfl
  | cons d t ih =>
    have hd : d < 10 := h d (by simp)
    simp only [List.map_cons, leadingDigits, (decChar_props d hd).1]
    rw [ih (fun x hx => h x (by simp [hx]))]

lemma parseLeading_decChars (ds : List Nat) (h : ∀ d ∈ ds, d < 10) (hne : ds ≠ []) :
    parseLeading 10 digit? (ds.map (fun d => Char.ofNat (48 + d))) =
      some (valOfDigits 10 ds) := by
  unfold parseLeading
  rw [leadingDigits_map ds h]
  cases ds with
  | nil => exact absurd rfl hne
  | cons d t => rfl

lemma parseUnsigned_decChars (ds : List Nat) (h : ∀ d ∈ ds, d < 10) (hne : ds ≠ []) :
    parseUnsigned (ds.map (fun d => Char.ofNat (48 + d))) =
      some (valOfDigits 10 ds) := by
  cases ds with
  | nil => exact absurd rfl hne
  | cons d0 t =>
    cases t with
    | nil => exact parseLeading_decChars [d0] h hne
    | cons d1 t2 =>
      have hd1 : d1 < 10 := h d1 (by simp)
      have hcond : ¬(Char.ofNat (48 + d0) = '0' ∧
          (Char.ofNat (48 + d1) = 'x' ∨ Char.ofNat (48 + d1) = 'X')) := by
        rintro ⟨-, hc | hc⟩
        · exact (decChar_props d1 hd1).2.1 hc
        · exact (decChar_props d1 hd1).2.2.1 hc
      show (if _ ∧ (_ ∨ _) then _ else
        parseLeading 10 digit? ((d0 :: d1 :: t2).map (fun d => Char.ofNat (48 + d)))) = _
      rw [if_neg hcond]
      exact parseLeading_decChars (d0 :: d1 :: t2) h hne

lemma parseUnsigned_natToDecChars (n : Nat) : parseUnsigned (natToDecChars n) = some n := by
  rw [natToDecChars,
    parseUnsigned_decChars _ (decDigits_all_lt (n + 1) n (Nat.lt_succ_self n))
      (decDigits_ne_nil n n),
    valOfDigits_decDigits]

lemma natToDecChars_shape (n : Nat) :
    ∃ d t, d < 10 ∧ natToDecChars n = Char.ofNat (48 + d) :: t := by
  have hne := decDigits_ne_nil n n
  have hlt := decDigits_all_lt (n + 1) n (Nat.lt_succ_self n)
  rw [natToDecChars]
  cases hds : decDigits (n + 1) n with
  | nil => exact absurd hds hne
  | cons d tl =>
    exact ⟨d, tl.map (fun d => Char.ofNat (48 + d)), hlt d (by rw [hds]; simp), by simp⟩

lemma parseIntJS_cons (c : Char) (rest : List Char) (h : isJsSpace c = false) :
    parseIntJS (String.mk (c :: rest)) =
      if c = '-' then (parseUnsigned rest).map (fun k => -(Int.ofNat k))
      else if c = '+' then (parseUnsigned rest).map Int.ofNat
      else (parseUnsigned (c :: rest)).map Int.ofNat := by
  unfold parseIntJS
  rw [show (String.mk (c :: rest)).data = c :: rest from rfl,
    List.dropWhile_cons_of_neg (by simp [h])]

/-- The round trip at the heart of the edit flow: rendering an integer
with `toString` and parsing it back with `parseInt` is the identity. -/
lemma parseIntJS_intToString (n : Int) : parseIntJS (intToString n) = some n := by
  obtain ⟨d, t, hd, hshape⟩ := natToDecChars_shape n.natAbs
  by_cases hneg : n < 0
  · rw [intToString, if_pos hneg, parseIntJS_cons '-' _ (by decide), if_pos rfl,
      parseUnsigned_natToDecChars]
    show some (-(Int.ofNat n.natAbs)) = some n
    congr 1
    rw [Int.ofNat_eq_natCast]
    omega
  · rw [intToString, if_neg hneg, hshape,
      parseIntJS_cons _ _ (decChar_props d hd).2.2.2.2.2,
      if_neg (decChar_props d hd).2.2.2.1, if_neg (decChar_props d hd).2.2.2.2.1,
      ← hshape, parseUnsigned_natToDecChars]
    show some (Int.ofNat n.natAbs) = some n
    congr 1
    rw [Int.ofNat_eq_natCast]
    omega

/-- The draft isbn text produced by `handleEdit` is never empty, so such a
draft always passes the presence check. -/
lemma intToString_ne_empty (n : Int) : intToString n ≠ "" := by
  obtain ⟨d, t, -, hshape⟩ := natToDecChars_shape n.natAbs
  rw [intToString]
  split
  · intro h
    exact List.cons_ne_nil _ _ (congrArg String.data h)
  · intro h
    rw [hshape] at h
    exact List.cons_ne_nil _ _ (congrArg String.data h)

/-! ### Trace characterizations shared by the claim theorems -/

lemma isMutation_submitRequest (s : AppState) : isMutation (submitRequest s) = true := by
  unfold submitRequest
  cases s.editingBook <;> rfl

lemma isMutation_getBooks : isMutation Request.getBooks = false := rfl

lemma payloadOf_submitRequest (s : AppState) :
    payloadOf (submitRequest s) = some (submitPayload s.formData) := by
  unfold submitRequest
  cases s.editingBook <;> rfl

lemma submitRequest_ne_getBooks (s : AppState) : submitRequest s ≠ Request.getBooks := by
  unfold submitRequest
  cases s.editingBook <;> simp

lemma handleSubmit_trace (s : AppState) (mutOk : Bool) (fr : Option (List Book))
    (h1 : s.formData.book_name ≠ "") (h2 : s.formData.author_name ≠ "")
    (h3 : s.formData.isbn ≠ "") :
    (handleSubmit s mutOk fr).2 =
      Event.request (submitRequest s) :: Event.response (submitRequest s) mutOk ::
        (if mutOk then
          [Event.request Request.getBooks, Event.response Request.getBooks fr.isSome]
        else []) := by
  unfold handleSubmit
  rw [if_neg (fun hc => hc.elim h1 fun hc2 => hc2.elim h2 h3)]
  cases mutOk
  · rfl
  · cases fr <;> rfl

lemma handleDelete_trace (s : AppState) (id : Int) (delOk : Bool) (fr : Option (List Book)) :
    (handleDelete s id true delOk fr).2 =
      Event.request (Request.deleteBook id) ::
        Event.response (Request.deleteBook id) delOk ::
        (if delOk then
          [Event.request Request.getBooks, Event.response Request.getBooks fr.isSome]
        else []) := by
  cases delOk
  · rfl
  · cases fr <;> rfl

lemma handleSubmit_mutationCalls (s : AppState) (mutOk : Bool) (fr : Option (List Book))
    (h1 : s.formData.book_name ≠ "") (h2 : s.formData.author_name ≠ "")
    (h3 : s.formData.isbn ≠ "") :
    mutationCalls (handleSubmit s mutOk fr).2 = [submitRequest s] := by
  rw [handleSubmit_trace s mutOk fr h1 h2 h3]
  cases mutOk <;>
    simp [mutationCalls, requestsOf, List.filter_cons, isMutation_submitRequest,
      isMutation_getBooks]

/-! ### Sample inputs used as witnesses -/

/-- The Dune example record from the spec. -/
def duneBook : Book :=
  { id := 3, book_name := "Dune", author_name := "Herbert", isbn := 9780441013593 }

/-- The Dune example draft from the spec. -/
def duneDraft : BookFormData :=
  { book_name := "Dune", author_name := "Herbert", isbn := "9780441013593" }

/-- A state about to submit the Dune draft as a new record. -/
def duneState : AppState :=
  { initialState with formData := duneDraft, isFormOpen := true }

/-- A state whose draft isbn text does not parse as a number. -/
def nanIsbnState : AppState :=
  { initialState with
    formData := { book_name := "Dune", author_name := "Herbert", isbn := "abc" }
    isFormOpen := true }

/-- A record whose isbn is 1e21. That value is an exactly representable
double, so the API can deliver such a record and the client can hold it. -/
def hugeIsbnBook : Book :=
  { id := 9, book_name := "Atlas", author_name := "Borges"
    isbn := 1000000000000000000000 }

/-- The state the program reaches after opening `hugeIsbnBook` for edit.
Per ECMAScript, a Number is rendered in exponential notation from 1e21
upward: `(1e21).toString()` is "1e+21", so that is the isbn text
`handleEdit` puts in the draft. The state is built directly, with that
text, because the embedded renderer `intToString` covers only the
plain-decimal branch of `toString` and diverges from JS here. -/
def hugeEditState : AppState :=
  { initialState with
    editingBook := some hugeIsbnBook
    formData := { book_name := hugeIsbnBook.book_name
                  author_name := hugeIsbnBook.author_name
                  isbn := "1e+21" }
    isFormOpen := true }

/-! ### The claims -/

/-- C1: for every valid draft, the single mutation issued by submit
carries exactly the payload whose two strings are the draft's strings
and whose isbn is the draft's isbn text through `parseInt`. -/
theorem submit_payload_exact (s : AppState) (mutOk : Bool) (fr : Option (List Book))
    (h1 : s.formData.book_name ≠ "") (h2 : s.formData.author_name ≠ "")
    (h3 : s.formData.isbn ≠ "") :
    (mutationCalls (handleSubmit s mutOk fr).2).map payloadOf =
      [some { book_name := s.formData.book_name
              author_name := s.formData.author_name
              isbn := parseIntJS s.formData.isbn }] := by
  rw [handleSubmit_mutationCalls s mutOk fr h1 h2 h3]
  simp [payloadOf_submitRequest, submitPayload]

theorem submit_payload_exact_witness :
    (duneState.formData.book_name ≠ "" ∧ duneState.formData.author_name ≠ "" ∧
      duneState.formData.isbn ≠ "") ∧
    (mutationCalls (handleSubmit duneState true (some [duneBook])).2).map payloadOf =
      [some { book_name := duneState.formData.book_name
              author_name := duneState.formData.author_name
              isbn := parseIntJS duneState.formData.isbn }] :=
  ⟨⟨by decide, by decide, by decide⟩,
    submit_payload_exact duneState true (some [duneBook]) (by decide) (by decide) (by decide)⟩

/-- C2: submitting a valid draft issues exactly one mutation — a PUT to
the edited record's id when a record is being edited, a POST to the
collection otherwise — never both. -/
theorem submit_single_mutation (s : AppState) (mutOk : Bool) (fr : Option (List Book))
    (h1 : s.formData.book_name ≠ "") (h2 : s.formData.author_name ≠ "")
    (h3 : s.formData.isbn ≠ "") :
    mutationCalls (handleSubmit s mutOk fr).2 =
      [match s.editingBook with
       | some b => Request.putBook b.id (submitPayload s.formData)
       | none => Request.postBook (submitPayload s.formData)] := by
  rw [handleSubmit_mutationCalls s mutOk fr h1 h2 h3]
  unfold submitRequest
  cases s.editingBook <;> rfl

theorem submit_single_mutation_witness :
    (duneState.formData.book_name ≠ "" ∧ duneState.formData.author_name ≠ "" ∧
      duneState.formData.isbn ≠ "") ∧
    mutationCalls (handleSubmit duneState false none).2 =
      [match duneState.editingBook with
       | some b => Request.putBook b.id (submitPayload duneState.formData)
       | none => Request.postBook (submitPayload duneState.formData)] :=
  ⟨⟨by decide, by decide, by decide⟩,
    submit_single_mutation duneState false none (by decide) (by decide) (by decide)⟩

/-- C3: submitting with any required field empty issues no network event,
sets the validation error, and leaves the book list, the draft and the
form-open state unchanged. -/
theorem submit_invalid_no_call (s : AppState) (mutOk : Bool) (fr : Option (List Book))
    (h : s.formData.book_name = "" ∨ s.formData.author_name = "" ∨ s.formData.isbn = "") :
    (handleSubmit s mutOk fr).2 = [] ∧
    (handleSubmit s mutOk fr).1.error = "All fields are required" ∧
    (handleSubmit s mutOk fr).1.books = s.books ∧
    (handleSubmit s mutOk fr).1.formData = s.formData ∧
    (handleSubmit s mutOk fr).1.isFormOpen = s.isFormOpen ∧
    (handleSubmit s mutOk fr).1.editingBook = s.editingBook := by
  unfold handleSubmit
  rw [if_pos h]
  exact ⟨rfl, rfl, rfl, rfl, rfl, rfl⟩

theorem submit_invalid_no_call_witness :
    (initialState.formData.book_name = "" ∨ initialState.formData.author_name = "" ∨
      initialState.formData.isbn = "") ∧
    ((handleSubmit initialState true none).2 = [] ∧
      (handleSubmit initialState true none).1.error = "All fields are required" ∧
      (handleSubmit initialState true none).1.books = initialState.books ∧
      (handleSubmit initialState true none).1.formData = initialState.formData ∧
      (handleSubmit initialState true none).1.isFormOpen = initialState.isFormOpen ∧
      (handleSubmit initialState true none).1.editingBook = initialState.editingBook) :=
  ⟨by decide, submit_invalid_no_call initialState true none (by decide)⟩

/-- C4: a failed create/update or delete mutation leaves the whole state
as it was, apart from the error message and the loading flag. -/
theorem mutation_failure_preserves_list (s : AppState) (fr : Option (List Book)) (id : Int)
    (h1 : s.formData.book_name ≠ "") (h2 : s.formData.author_name ≠ "")
    (h3 : s.formData.isbn ≠ "") :
    (handleSubmit s false fr).1 = { s with error := "Failed to save book", loading := false } ∧
    (handleDelete s id true false fr).1 =
      { s with error := "Failed to delete book", loading := false } := by
  constructor
  · unfold handleSubmit
    rw [if_neg (fun hc => hc.elim h1 fun hc2 => hc2.elim h2 h3)]
    rfl
  · rfl

theorem mutation_failure_preserves_list_witness :
    (duneState.formData.book_name ≠ "" ∧ duneState.formData.author_name ≠ "" ∧
      duneState.formData.isbn ≠ "") ∧
    ((handleSubmit duneState false none).1 =
        { duneState with error := "Failed to save book", loading := false } ∧
      (handleDelete duneState 7 true false none).1 =
        { duneState with error := "Failed to delete book", loading := false }) :=
  ⟨⟨by decide, by decide, by decide⟩,
    mutation_failure_preserves_list duneState none 7 (by decide) (by decide) (by decide)⟩

/-- C5: the form state machine: opening for edit pre-fills the draft from
the record, cancel and submit-success close the form with the draft
cleared and editing stopped, and submit-failure keeps the form state and
draft and shows the error. -/
theorem form_state_machine (s : AppState) (b : Book) (fr : Option (List Book))
    (h1 : s.formData.book_name ≠ "") (h2 : s.formData.author_name ≠ "")
    (h3 : s.formData.isbn ≠ "") :
    ((handleEdit s b).formData =
        { book_name := b.book_name, author_name := b.author_name
          isbn := intToString b.isbn } ∧
      (handleEdit s b).editingBook = some b ∧
      (handleEdit s b).isFormOpen = true) ∧
    ((resetForm s).isFormOpen = false ∧
      (resetForm s).formData = { book_name := "", author_name := "", isbn := "" } ∧
      (resetForm s).editingBook = none) ∧
    ((handleSubmit s true fr).1.isFormOpen = false ∧
      (handleSubmit s true fr).1.formData = { book_name := "", author_name := "", isbn := "" } ∧
      (handleSubmit s true fr).1.editingBook = none) ∧
    ((handleSubmit s false fr).1.isFormOpen = s.isFormOpen ∧
      (handleSubmit s false fr).1.formData = s.formData ∧
      (handleSubmit s false fr).1.editingBook = s.editingBook ∧
      (handleSubmit s false fr).1.error = "Failed to save book") := by
  refine ⟨⟨rfl, rfl, rfl⟩, ⟨rfl, rfl, rfl⟩, ?_, ?_⟩
  · unfold handleSubmit
    rw [if_neg (fun hc => hc.elim h1 fun hc2 => hc2.elim h2 h3)]
    cases fr <;> exact ⟨rfl, rfl, rfl⟩
  · unfold handleSubmit
    rw [if_neg (fun hc => hc.elim h1 fun hc2 => hc2.elim h2 h3)]
    exact ⟨rfl, rfl, rfl, rfl⟩

theorem form_state_machine_witness :
    (duneState.formData.book_name ≠ "" ∧ duneState.formData.author_name ≠ "" ∧
      duneState.formData.isbn ≠ "") ∧
    (((handleEdit duneState duneBook).formData =
        { book_name := duneBook.book_name, author_name := duneBook.author_name
          isbn := intToString duneBook.isbn } ∧
      (handleEdit duneState duneBook).editingBook = some duneBook ∧
      (handleEdit duneState duneBook).isFormOpen = true) ∧
    ((resetForm duneState).isFormOpen = false ∧
      (resetForm duneState).formData = { book_name := "", author_name := "", isbn := "" } ∧
      (resetForm duneState).editingBook = none) ∧
    ((handleSubmit duneState true (some [duneBook])).1.isFormOpen = false ∧
      (handleSubmit duneState true (some [duneBook])).1.formData =
        { book_name := "", author_name := "", isbn := "" } ∧
      (handleSubmit duneState true (some [duneBook])).1.editingBook = none) ∧
    ((handleSubmit duneState false (some [duneBook])).1.isFormOpen = duneState.isFormOpen ∧
      (handleSubmit duneState false (some [duneBook])).1.formData = duneState.formData ∧
      (handleSubmit duneState false (some [duneBook])).1.editingBook = duneState.editingBook ∧
      (handleSubmit duneState false (some [duneBook])).1.error = "Failed to save book")) :=
  ⟨⟨by decide, by decide, by decide⟩,
    form_state_machine duneState duneBook (some [duneBook]) (by decide) (by decide) (by decide)⟩

/-- C6: one run of the Catalog Loader replaces the list and clears the
error on success, and on failure sets the error and leaves the list (and
the rest of the state) unchanged. -/
theorem catalog_loader_contract (s : AppState) (data : List Book) :
    ((fetchBooks s (some data)).1.books = data ∧
      (fetchBooks s (some data)).1.error = "" ∧
      (fetchBooks s (some data)).1.isFormOpen = s.isFormOpen ∧
      (fetchBooks s (some data)).1.formData = s.formData ∧
      (fetchBooks s (some data)).1.editingBook = s.editingBook) ∧
    ((fetchBooks s none).1.books = s.books ∧
      (fetchBooks s none).1.error = "Failed to load books. Make sure API is running." ∧
      (fetchBooks s none).1.isFormOpen = s.isFormOpen ∧
      (fetchBooks s none).1.formData = s.formData ∧
      (fetchBooks s none).1.editingBook = s.editingBook) :=
  ⟨⟨rfl, rfl, rfl, rfl, rfl⟩, ⟨rfl, rfl, rfl, rfl, rfl⟩⟩

/-- C7: deleting without confirming performs nothing at all; deleting
with confirmation issues exactly one DELETE for that id, followed by the
list re-fetch exactly when the DELETE succeeded. -/
theorem delete_confirmation_gate (s : AppState) (id : Int) (delOk : Bool)
    (fr : Option (List Book)) :
    handleDelete s id false delOk fr = (s, []) ∧
    requestsOf (handleDelete s id true delOk fr).2 =
      Request.deleteBook id :: (if delOk then [Request.getBooks] else []) := by
  refine ⟨rfl, ?_⟩
  rw [handleDelete_trace s id delOk fr]
  cases delOk <;> rfl

/-- C8: in every submit or confirmed-delete run, no list-refresh request
is issued before the mutation's successful response has been received,
and the refresh happens exactly when the mutation succeeded. -/
theorem refresh_strictly_after_mutation (s : AppState) (mutOk delOk : Bool)
    (fr : Option (List Book)) (id : Int)
    (h1 : s.formData.book_name ≠ "") (h2 : s.formData.author_name ≠ "")
    (h3 : s.formData.isbn ≠ "") :
    (refreshOnlyAfterResp (submitRequest s) (handleSubmit s mutOk fr).2 = true ∧
      (mutOk = true → Event.request Request.getBooks ∈ (handleSubmit s mutOk fr).2) ∧
      (mutOk = false → Event.request Request.getBooks ∉ (handleSubmit s mutOk fr).2)) ∧
    (refreshOnlyAfterResp (Request.deleteBook id) (handleDelete s id true delOk fr).2 = true ∧
      (delOk = true → Event.request Request.getBooks ∈ (handleDelete s id true delOk fr).2) ∧
      (delOk = false →
        Event.request Request.getBooks ∉ (handleDelete s id true delOk fr).2)) := by
  constructor
  · rw [handleSubmit_trace s mutOk fr h1 h2 h3]
    cases mutOk <;>
      simp [refreshOnlyAfterResp, submitRequest_ne_getBooks s,
        Ne.symm (submitRequest_ne_getBooks s)]
  · rw [handleDelete_trace s id delOk fr]
    cases delOk <;> simp [refreshOnlyAfterResp]

theorem refresh_strictly_after_mutation_witness :
    (duneState.formData.book_name ≠ "" ∧ duneState.formData.author_name ≠ "" ∧
      duneState.formData.isbn ≠ "") ∧
    ((refreshOnlyAfterResp (submitRequest duneState)
        (handleSubmit duneState true (some [duneBook])).2 = true ∧
      (true = true →
        Event.request Request.getBooks ∈ (handleSubmit duneState true (some [duneBook])).2) ∧
      (true = false →
        Event.request Request.getBooks ∉ (handleSubmit duneState true (some [duneBook])).2)) ∧
    (refreshOnlyAfterResp (Request.deleteBook 3)
        (handleDelete duneState 3 true true (some [duneBook])).2 = true ∧
      (true = true →
        Event.request Request.getBooks ∈ (handleDelete duneState 3 true true (some [duneBook])).2) ∧
      (true = false →
        Event.request Request.getBooks ∉
          (handleDelete duneState 3 true true (some [duneBook])).2))) :=
  ⟨⟨by decide, by decide, by decide⟩,
    refresh_strictly_after_mutation duneState true true (some [duneBook]) 3
      (by decide) (by decide) (by decide)⟩

/-- C9: a draft whose isbn text is non-empty but unparseable still passes
validation, and the mutation goes out with the NaN parse result as its
isbn — validation does not make the sent isbn an integer. -/
theorem unparseable_isbn_sent (s : AppState) (mutOk : Bool) (fr : Option (List Book))
    (h1 : s.formData.book_name ≠ "") (h2 : s.formData.author_name ≠ "")
    (h3 : s.formData.isbn ≠ "") (h4 : parseIntJS s.formData.isbn = none) :
    (mutationCalls (handleSubmit s mutOk fr).2).map payloadOf =
      [some { book_name := s.formData.book_name
              author_name := s.formData.author_name
              isbn := none }] := by
  rw [handleSubmit_mutationCalls s mutOk fr h1 h2 h3]
  simp [payloadOf_submitRequest, submitPayload, h4]

theorem unparseable_isbn_sent_witness :
    (nanIsbnState.formData.book_name ≠ "" ∧ nanIsbnState.formData.author_name ≠ "" ∧
      nanIsbnState.formData.isbn ≠ "" ∧ parseIntJS nanIsbnState.formData.isbn = none) ∧
    (mutationCalls (handleSubmit nanIsbnState true none).2).map payloadOf =
      [some { book_name := nanIsbnState.formData.book_name
              author_name := nanIsbnState.formData.author_name
              isbn := none }] :=
  ⟨⟨by decide, by decide, by decide, by decide⟩,
    unparseable_isbn_sent nanIsbnState true none (by decide) (by decide) (by decide) (by decide)⟩

/-- C10 counterexample: at the record with isbn 1e21 the program's
post-edit draft text is "1e+21" (JS exponential notation), `parseInt`
stops at the 'e' and yields 1, and submitting that state PUTs isbn 1 —
not the record's original 1e21. The last conjunct records that the
embedded plain-decimal renderer disagrees with JS at this value, which
is why the failure must be exhibited on the directly built state. -/
theorem edit_submit_roundtrip_cex :
    parseIntJS "1e+21" = some 1 ∧
    (mutationCalls (handleSubmit hugeEditState true none).2).map payloadOf =
      [some { book_name := hugeIsbnBook.book_name
              author_name := hugeIsbnBook.author_name
              isbn := some 1 }] ∧
    (1 : Int) ≠ hugeIsbnBook.isbn ∧
    intToString hugeIsbnBook.isbn ≠ "1e+21" :=
  ⟨by decide, by decide, by decide, by decide⟩

/-- C10 (amended): for every record whose isbn is a JS safe integer
(magnitude at most 2^53 — every 13-digit ISBN is far below), opening it
for edit pre-fills the draft with the isbn's exact decimal string, which
is what JS renders on that range, and submitting the draft unchanged
sends a PUT to the record's id carrying exactly the original field
values: the rendered isbn parses back to the original integer. -/
theorem edit_submit_roundtrip_safe (s : AppState) (b : Book) (mutOk : Bool)
    (fr : Option (List Book))
    (hbn : b.book_name ≠ "") (han : b.author_name ≠ "")
    (hsafe : b.isbn.natAbs ≤ 2 ^ 53) :
    (handleEdit s b).formData =
      { book_name := b.book_name, author_name := b.author_name
        isbn := intToString b.isbn } ∧
    mutationCalls (handleSubmit (handleEdit s b) mutOk fr).2 =
      [Request.putBook b.id
        { book_name := b.book_name, author_name := b.author_name, isbn := some b.isbn }] := by
  refine ⟨rfl, ?_⟩
  rw [handleSubmit_mutationCalls (handleEdit s b) mutOk fr hbn han
    (intToString_ne_empty b.isbn)]
  simp [submitRequest, handleEdit, submitPayload, parseIntJS_intToString]

theorem edit_submit_roundtrip_safe_witness :
    (duneBook.book_name ≠ "" ∧ duneBook.author_name ≠ "" ∧
      duneBook.isbn.natAbs ≤ 2 ^ 53) ∧
    ((handleEdit initialState duneBook).formData =
      { book_name := duneBook.book_name, author_name := duneBook.author_name
        isbn := intToString duneBook.isbn } ∧
    mutationCalls (handleSubmit (handleEdit initialState duneBook) true none).2 =
      [Request.putBook duneBook.id
        { book_name := duneBook.book_name, author_name := duneBook.author_name
          isbn := some duneBook.isbn }]) :=
  ⟨⟨by decide, by decide, by decide⟩,
    edit_submit_roundtrip_safe initialState duneBook true none
      (by decide) (by decide) (by decide)⟩

end BookApp
